import Mathlib

/-!
Shallow embedding of the macbook12-spi-driver sources (src/applespi.c and
src/appletb.c) and proofs about the behaviour claimed by the specification.

The appletb namespace embeds the touch bar driver (src/appletb.c): the
mode/display controller state, the worker, the sysfs attribute stores and
the HID key-event handler. The applespi namespace embeds the SPI
keyboard/touchpad driver (src/applespi.c): the command queue, the received
frame dispatch, the keyboard event handler and the touchpad reporting.

Machine integers are modelled as Nat (unsigned char, u8, u16, unsigned) or
Int (int, long, s32, s64). C integer division truncates toward zero, which
is Int.tdiv in Lean, and is used wherever the C source divides ints.
-/

namespace appletb

/-! Constants from src/appletb.c (lines 90-113) and the Linux input key
codes used by the driver. -/

def APPLETB_MAX_TB_KEYS : Nat := 13

def APPLETB_CMD_MODE_ESC : Nat := 0
def APPLETB_CMD_MODE_FN : Nat := 1
def APPLETB_CMD_MODE_SPCL : Nat := 2
def APPLETB_CMD_MODE_OFF : Nat := 3
def APPLETB_CMD_MODE_NONE : Nat := 255

def APPLETB_CMD_DISP_ON : Nat := 1
def APPLETB_CMD_DISP_DIM : Nat := 2
def APPLETB_CMD_DISP_OFF : Nat := 4
def APPLETB_CMD_DISP_NONE : Nat := 255

def APPLETB_FN_MODE_FKEYS : Int := 0
def APPLETB_FN_MODE_NORM : Int := 1
def APPLETB_FN_MODE_INV : Int := 2
def APPLETB_FN_MODE_SPCL : Int := 3
def APPLETB_FN_MODE_MAX : Int := APPLETB_FN_MODE_SPCL

def APPLETB_MAX_DIM_TIME : Int := 30

def INT_MAX : Int := 2147483647
def EINVAL : Int := 22
def EPIPE : Int := 32

/-! Linux input-event codes used by the touch bar driver. -/

def EV_KEY : Nat := 1
def KEY_ESC : Nat := 1
def KEY_F1 : Nat := 59
def KEY_F2 : Nat := 60
def KEY_F3 : Nat := 61
def KEY_F4 : Nat := 62
def KEY_F5 : Nat := 63
def KEY_F6 : Nat := 64
def KEY_F7 : Nat := 65
def KEY_F8 : Nat := 66
def KEY_F9 : Nat := 67
def KEY_F10 : Nat := 68
def KEY_F11 : Nat := 87
def KEY_F12 : Nat := 88
def KEY_UNKNOWN : Nat := 240
def KEY_FN : Nat := 464
def KEY_BRIGHTNESSDOWN : Nat := 224
def KEY_BRIGHTNESSUP : Nat := 225
def KEY_SCALE : Nat := 120
def KEY_DASHBOARD : Nat := 204
def KEY_KBDILLUMDOWN : Nat := 229
def KEY_KBDILLUMUP : Nat := 230
def KEY_PREVIOUSSONG : Nat := 165
def KEY_PLAYPAUSE : Nat := 164
def KEY_NEXTSONG : Nat := 163
def KEY_MUTE : Nat := 113
def KEY_VOLUMEDOWN : Nat := 114
def KEY_VOLUMEUP : Nat := 115

/-- State of struct appletb_device (src/appletb.c lines 161-209), restricted
to the fields the mode/display controller reads or writes. The key-pressed
and key-translated arrays have APPLETB_MAX_TB_KEYS (13) entries.
last_event_time is a monotonic millisecond timestamp (ktime modelled as
Int). -/
structure AppletbDevice where
  active : Bool
  last_tb_keys_pressed : List Bool
  last_tb_keys_translated : List Bool
  last_fn_pressed : Bool
  last_event_time : Int
  cur_tb_mode : Nat
  pnd_tb_mode : Nat
  cur_tb_disp : Nat
  pnd_tb_disp : Nat
  restore_autopm : Bool
  dim_timeout : Int
  idle_timeout : Int
  dim_to_is_calc : Bool
  fn_mode : Int
deriving DecidableEq, Repr

/-- appletb_any_tb_key_pressed (src/appletb.c lines 406-416): true iff some
entry of last_tb_keys_pressed is set. -/
def appletb_any_tb_key_pressed (tb_dev : AppletbDevice) : Bool :=
  tb_dev.last_tb_keys_pressed.any (fun b => b)

/-- appletb_get_cur_tb_mode (lines 552-556): the pending mode if one is set,
else the current mode. -/
def appletb_get_cur_tb_mode (tb_dev : AppletbDevice) : Nat :=
  if tb_dev.pnd_tb_mode ≠ APPLETB_CMD_MODE_NONE then tb_dev.pnd_tb_mode
  else tb_dev.cur_tb_mode

/-- appletb_get_cur_tb_disp (lines 558-562): the pending display state if one
is set, else the current display state. -/
def appletb_get_cur_tb_disp (tb_dev : AppletbDevice) : Nat :=
  if tb_dev.pnd_tb_disp ≠ APPLETB_CMD_DISP_NONE then tb_dev.pnd_tb_disp
  else tb_dev.cur_tb_disp

/-- appletb_get_fn_tb_mode (lines 564-582): the desired touch bar mode as a
function of the fn_mode setting and the Fn key state. The C switch falls
through to the APPLETB_FN_MODE_NORM case for any other value. -/
def appletb_get_fn_tb_mode (tb_dev : AppletbDevice) : Nat :=
  if tb_dev.fn_mode = APPLETB_FN_MODE_FKEYS then APPLETB_CMD_MODE_FN
  else if tb_dev.fn_mode = APPLETB_FN_MODE_SPCL then APPLETB_CMD_MODE_SPCL
  else if tb_dev.fn_mode = APPLETB_FN_MODE_INV then
    (if tb_dev.last_fn_pressed then APPLETB_CMD_MODE_SPCL else APPLETB_CMD_MODE_FN)
  else
    (if tb_dev.last_fn_pressed then APPLETB_CMD_MODE_FN else APPLETB_CMD_MODE_SPCL)

/-- appletb_update_touchbar_no_lock (lines 587-643). Returns the updated
device state and the need_update flag; need_update = true means the worker
is (re)scheduled at zero delay (cancel_delayed_work + schedule_delayed_work
with delay 0). -/
def appletb_update_touchbar_no_lock (tb_dev : AppletbDevice) (force : Bool) :
    AppletbDevice × Bool :=
  let want_mode :=
    if tb_dev.idle_timeout = 0 then APPLETB_CMD_MODE_OFF
    else appletb_get_fn_tb_mode tb_dev
  let want_disp :=
    if tb_dev.idle_timeout = 0 then APPLETB_CMD_DISP_OFF
    else if tb_dev.dim_timeout = 0 then APPLETB_CMD_DISP_DIM
    else APPLETB_CMD_DISP_ON
  let step1 :=
    if appletb_get_cur_tb_mode tb_dev ≠ want_mode ∧
       appletb_any_tb_key_pressed tb_dev = false then
      ({ tb_dev with pnd_tb_mode := want_mode }, true)
    else (tb_dev, false)
  let d1 := step1.1
  let step2 :=
    if appletb_get_cur_tb_disp d1 ≠ want_disp ∧
       (appletb_any_tb_key_pressed d1 = false ∨
        (appletb_any_tb_key_pressed d1 = true ∧ want_disp ≠ APPLETB_CMD_DISP_OFF)) then
      ({ d1 with pnd_tb_disp := want_disp }, true)
    else (d1, step1.2)
  (step2.1, force || step2.2)

/-- appletb_update_touchbar (lines 645-655): runs the update under the lock
only when the device is active. The Bool result records whether the worker
was scheduled. -/
def appletb_update_touchbar (tb_dev : AppletbDevice) (force : Bool) :
    AppletbDevice × Bool :=
  if tb_dev.active then appletb_update_touchbar_no_lock tb_dev force
  else (tb_dev, false)

/-- appletb_set_idle_timeout (lines 657-662): sets idle_timeout and, when the
dim timeout is in derived mode, recomputes dim_timeout as
new - min(APPLETB_MAX_DIM_TIME, new / 3) with C (truncating) division. -/
def appletb_set_idle_timeout (tb_dev : AppletbDevice) (new : Int) : AppletbDevice :=
  let d := { tb_dev with idle_timeout := new }
  if d.dim_to_is_calc then
    { d with dim_timeout := new - min APPLETB_MAX_DIM_TIME (Int.tdiv new 3) }
  else d

/-- appletb_set_dim_timeout (lines 690-699): -2 turns on derived mode and
recomputes from the current idle_timeout; any other value is stored
directly. -/
def appletb_set_dim_timeout (tb_dev : AppletbDevice) (new : Int) : AppletbDevice :=
  if new = -2 then
    appletb_set_idle_timeout { tb_dev with dim_to_is_calc := true } tb_dev.idle_timeout
  else
    { tb_dev with dim_to_is_calc := false, dim_timeout := new }

/-- Result of a sysfs attribute store: the returned code (0 here standing for
the successful "return size", or -EINVAL), the device state afterwards, and
a record of the appletb_update_touchbar call the store made:
some (force, scheduled) when it was called, none when the store errored
out before reaching it. -/
structure StoreOut where
  rc : Int
  dev : AppletbDevice
  upd : Option (Bool × Bool)
deriving DecidableEq, Repr

/-- idle_timeout_store (lines 672-688). The parse argument models the
kstrtol outcome: none for a parse error, some v for a parsed long v. -/
def idle_timeout_store (tb_dev : AppletbDevice) (parse : Option Int) : StoreOut :=
  match parse with
  | none => { rc := -EINVAL, dev := tb_dev, upd := none }
  | some new =>
    if new > INT_MAX ∨ new < -1 then { rc := -EINVAL, dev := tb_dev, upd := none }
    else
      let d := appletb_set_idle_timeout tb_dev new
      let u := appletb_update_touchbar d true
      { rc := 0, dev := u.1, upd := some (true, u.2) }

/-- dim_timeout_store (lines 710-726). -/
def dim_timeout_store (tb_dev : AppletbDevice) (parse : Option Int) : StoreOut :=
  match parse with
  | none => { rc := -EINVAL, dev := tb_dev, upd := none }
  | some new =>
    if new > INT_MAX ∨ new < -2 then { rc := -EINVAL, dev := tb_dev, upd := none }
    else
      let d := appletb_set_dim_timeout tb_dev new
      let u := appletb_update_touchbar d true
      { rc := 0, dev := u.1, upd := some (true, u.2) }

/-- fnmode_store (lines 736-751). Note the update_touchbar call passes
force = false, unlike the two timeout stores. -/
def fnmode_store (tb_dev : AppletbDevice) (parse : Option Int) : StoreOut :=
  match parse with
  | none => { rc := -EINVAL, dev := tb_dev, upd := none }
  | some new =>
    if new > APPLETB_FN_MODE_MAX ∨ new < 0 then
      { rc := -EINVAL, dev := tb_dev, upd := none }
    else
      let d := { tb_dev with fn_mode := new }
      let u := appletb_update_touchbar d false
      { rc := 0, dev := u.1, upd := some (false, u.2) }

/-- Output of the second critical section of appletb_set_tb_worker
(src/appletb.c lines 451-502): the device state after committing the sent
commands, the need_reschedule flag, and the values snapshotted under the
lock for the post-unlock decision. -/
structure TbWorkerOut where
  dev : AppletbDevice
  need_reschedule : Bool
  min_timeout : Int
  time_left : Int
  time_to_off : Int
  any_tb_key_pressed : Bool
  current_disp : Nat
deriving DecidableEq, Repr

/-- Second critical section of appletb_set_tb_worker (lines 451-502).
tb_dev is the device state when the lock is re-acquired (it may have been
mutated concurrently while the commands were being sent); pending_mode and
pending_disp are the values snapshotted in the first critical section and
sent; rc1 and rc2 are the results of appletb_set_tb_mode and
appletb_set_tb_disp (initialised to 1 and only 0 on a successful send); now
is the ktime_get() millisecond timestamp. When min_timeout ≤ 0 the C code
leaves time_left and time_to_off uninitialised and never reads them; they
are set to 0 here. -/
def appletb_set_tb_worker_locked2 (tb_dev : AppletbDevice)
    (pending_mode pending_disp : Nat) (rc1 rc2 : Int) (now : Int) : TbWorkerOut :=
  let step1 :=
    if rc1 = 0 then
      ({ tb_dev with
           cur_tb_mode := pending_mode,
           pnd_tb_mode := if tb_dev.pnd_tb_mode = pending_mode then
               APPLETB_CMD_MODE_NONE else tb_dev.pnd_tb_mode },
       tb_dev.pnd_tb_mode != pending_mode)
    else (tb_dev, false)
  let d1 := step1.1
  let step2 :=
    if rc2 = 0 then
      ({ d1 with
           cur_tb_disp := pending_disp,
           pnd_tb_disp := if d1.pnd_tb_disp = pending_disp then
               APPLETB_CMD_DISP_NONE else d1.pnd_tb_disp },
       d1.pnd_tb_disp != pending_disp)
    else (d1, false)
  let d2 : AppletbDevice := { step2.1 with restore_autopm := false }
  let need_reschedule := step1.2 || step2.2
  let min_timeout : Int :=
    if d2.idle_timeout ≤ 0 ∧ d2.dim_timeout ≤ 0 then -1
    else if d2.dim_timeout ≤ 0 then d2.idle_timeout
    else if d2.idle_timeout ≤ 0 then d2.dim_timeout
    else min d2.dim_timeout d2.idle_timeout
  let idle_time := Int.tdiv (now - d2.last_event_time + 500) 1000
  let time_left := if min_timeout > 0 then max (min_timeout - idle_time) 0 else 0
  let time_to_off :=
    if min_timeout > 0 then
      (if d2.idle_timeout ≤ 0 then -1
       else if idle_time ≥ d2.idle_timeout then 0
       else d2.idle_timeout - idle_time)
    else 0
  { dev := d2, need_reschedule := need_reschedule, min_timeout := min_timeout,
    time_left := time_left, time_to_off := time_to_off,
    any_tb_key_pressed := appletb_any_tb_key_pressed d2,
    current_disp := d2.cur_tb_disp }

/-- Post-unlock tail of appletb_set_tb_worker (lines 504-537). Returns the
device state (cur_tb_disp may be committed after a successful dim/off
display send, whose outcome is the disp_send_ok parameter) and the delay in
milliseconds of the schedule_delayed_work call, if any. -/
def appletb_set_tb_worker_post (o : TbWorkerOut) (disp_send_ok : Bool) :
    AppletbDevice × Option Int :=
  if o.need_reschedule then (o.dev, some 0)
  else if o.min_timeout ≤ 0 then (o.dev, none)
  else if o.time_left > 0 then (o.dev, some (o.time_left * 1000))
  else if o.any_tb_key_pressed then (o.dev, some (o.min_timeout * 1000))
  else
    let next_disp := if o.time_to_off = 0 then APPLETB_CMD_DISP_OFF
                     else APPLETB_CMD_DISP_DIM
    let dev := if next_disp ≠ o.current_disp ∧ disp_send_ok then
        { o.dev with cur_tb_disp := next_disp }
      else o.dev
    (dev, if o.time_to_off > 0 then some (o.time_to_off * 1000) else none)

/-- appletb_fn_codes (lines 219-232): the Fn translation table for the touch
bar keys. -/
def appletb_fn_codes : List (Nat × Nat) :=
  [(KEY_F1, KEY_BRIGHTNESSDOWN),
   (KEY_F2, KEY_BRIGHTNESSUP),
   (KEY_F3, KEY_SCALE),
   (KEY_F4, KEY_DASHBOARD),
   (KEY_F5, KEY_KBDILLUMDOWN),
   (KEY_F6, KEY_KBDILLUMUP),
   (KEY_F7, KEY_PREVIOUSSONG),
   (KEY_F8, KEY_PLAYPAUSE),
   (KEY_F9, KEY_NEXTSONG),
   (KEY_F10, KEY_MUTE),
   (KEY_F11, KEY_VOLUMEDOWN),
   (KEY_F12, KEY_VOLUMEUP)]

/-- appletb_fn_to_special (lines 540-550): looks the key up in
appletb_fn_codes, returning 0 when absent. -/
def appletb_fn_to_special (code : Nat) : Nat :=
  match appletb_fn_codes.find? (fun p => p.1 == code) with
  | some p => p.2
  | none => 0

/-- appletb_tb_key_to_slot (lines 753-775): ESC and F1-F12 map to slots
0-12, everything else to -1. -/
def appletb_tb_key_to_slot (code : Nat) : Int :=
  if code = KEY_ESC then 0
  else if KEY_F1 ≤ code ∧ code ≤ KEY_F10 then (code : Int) - KEY_F1 + 1
  else if code = KEY_F11 ∨ code = KEY_F12 then (code : Int) - KEY_F11 + 11
  else -1

/-- An input_event emission: type, code and value. -/
structure InputEv where
  type : Nat
  code : Nat
  value : Int
deriving DecidableEq, Repr

/-- appletb_hid_key_event (lines 829-914). Returns the handler result (1
consumes the event, 0 passes it through), the device state, and the
input_event calls made after the lock is dropped. now models ktime_get(). -/
def appletb_hid_key_event (tb_dev : AppletbDevice) (usage_type usage_code : Nat)
    (value : Int) (now : Int) : Int × AppletbDevice × List InputEv :=
  let slot := appletb_tb_key_to_slot usage_code
  if slot < 0 then (0, tb_dev, [])
  else if tb_dev.active = false then (0, tb_dev, [])
  else
    let new_code := if usage_type = EV_KEY then appletb_fn_to_special usage_code else 0
    let d1 :=
      if usage_type = EV_KEY ∧ value ≠ 2 then
        { tb_dev with last_tb_keys_pressed :=
            tb_dev.last_tb_keys_pressed.set slot.toNat (value ≠ 0) }
      else tb_dev
    let d2 := { d1 with last_event_time := now }
    let d3 := (appletb_update_touchbar_no_lock d2 false).1
    if d3.cur_tb_mode = APPLETB_CMD_MODE_OFF ∨ d3.cur_tb_disp = APPLETB_CMD_DISP_OFF then
      (1, d3, [{ type := EV_KEY, code := KEY_UNKNOWN, value := 1 },
               { type := EV_KEY, code := KEY_UNKNOWN, value := 0 }])
    else if usage_type = EV_KEY ∧ new_code ≠ 0 ∧
            ((value > 0 ∧ appletb_get_cur_tb_mode d3 = APPLETB_CMD_MODE_SPCL) ∨
             (value = 0 ∧ d3.last_tb_keys_translated.getD slot.toNat false = true)) then
      let d4 := { d3 with last_tb_keys_translated :=
          d3.last_tb_keys_translated.set slot.toNat true }
      (1, d4, [{ type := usage_type, code := new_code, value := value }])
    else
      let d4 := { d3 with last_tb_keys_translated :=
          d3.last_tb_keys_translated.set slot.toNat false }
      (0, d4, [])

/-- appletb_send_hid_report retry loop (lines 314-324), modelled with the
results of the successive usb_control_msg calls given as the res stream
(res i is the result of the i-th attempt, 0-based). The fuel argument is a
structural-recursion bound; the top-level wrapper passes 5, which the
tries < 5 cutoff makes exact. Returns the final rc, the number of attempts
made, and the (min, max) microsecond bounds of each usleep_range call. -/
def appletb_send_hid_report_loop (res : Nat → Int) :
    Nat → Nat → Int × Nat × List (Nat × Nat)
  | tries, 0 => (res tries, tries + 1, [])
  | tries, fuel + 1 =>
    let rc := res tries
    if rc = -EPIPE then
      let slp := (1000 * 2 ^ tries, 3000 * 2 ^ tries)
      if tries + 1 < 5 then
        let r := appletb_send_hid_report_loop res (tries + 1) fuel
        (r.1, r.2.1, slp :: r.2.2)
      else (rc, tries + 1, [slp])
    else (rc, tries + 1, [])

/-- appletb_send_hid_report (lines 301-329): up to 5 attempts with
exponential backoff on -EPIPE; the final return value maps rc > 0 (bytes
transferred) to 0. -/
def appletb_send_hid_report (res : Nat → Int) : Int × Nat × List (Nat × Nat) :=
  let r := appletb_send_hid_report_loop res 0 5
  (if r.1 > 0 then 0 else r.1, r.2)

/-- A base device state used to build concrete states in witnesses and
counterexamples: inactive flags cleared, both pending slots at their NONE
sentinels, mode FN, display on, defaults from module parameters
(idle_timeout 300, dim_timeout derived = 270, fnmode NORM). -/
def tbBase : AppletbDevice :=
  { active := true,
    last_tb_keys_pressed := List.replicate APPLETB_MAX_TB_KEYS false,
    last_tb_keys_translated := List.replicate APPLETB_MAX_TB_KEYS false,
    last_fn_pressed := false,
    last_event_time := 0,
    cur_tb_mode := APPLETB_CMD_MODE_FN,
    pnd_tb_mode := APPLETB_CMD_MODE_NONE,
    cur_tb_disp := APPLETB_CMD_DISP_ON,
    pnd_tb_disp := APPLETB_CMD_DISP_NONE,
    restore_autopm := false,
    dim_timeout := 270,
    idle_timeout := 300,
    dim_to_is_calc := true,
    fn_mode := APPLETB_FN_MODE_NORM }

/-- Modelled from the spec: the desired-mode table as the specification
states it (claim C4 and spec section 4.4), with the spec phrase
"function-row meaning (brightness/volume etc.)" denoting
APPLETB_CMD_MODE_SPCL (the layout with the brightness/volume special keys)
and "F-key meaning" denoting APPLETB_CMD_MODE_FN (the layout with
F1-F12). To be compared against appletb_get_fn_tb_mode from the source. -/
def appletb_fn_tb_mode_claimed (fn_mode : Int) (fn_pressed : Bool) : Nat :=
  if fn_mode = 0 then APPLETB_CMD_MODE_SPCL
  else if fn_mode = 1 then
    (if fn_pressed then APPLETB_CMD_MODE_FN else APPLETB_CMD_MODE_SPCL)
  else if fn_mode = 2 then
    (if fn_pressed then APPLETB_CMD_MODE_SPCL else APPLETB_CMD_MODE_FN)
  else APPLETB_CMD_MODE_FN

/-- A state with the ESC touch bar key pressed, the touch bar currently in
special-keys mode, fn_mode 0 (so the desired mode, APPLETB_CMD_MODE_FN,
differs from the effective mode), timers disabled and no pending values. -/
def tb_key_pressed_state : AppletbDevice :=
  { tbBase with
      last_tb_keys_pressed := true :: List.replicate 12 false,
      cur_tb_mode := APPLETB_CMD_MODE_SPCL,
      fn_mode := APPLETB_FN_MODE_FKEYS,
      idle_timeout := -1,
      dim_timeout := -1 }

/-- A settled state: no keys pressed, no pending values, current mode and
display already equal to the desired ones for any fn_mode whose desired
mode is APPLETB_CMD_MODE_FN, timers disabled. -/
def tb_settled_state : AppletbDevice :=
  { tbBase with
      cur_tb_mode := APPLETB_CMD_MODE_FN,
      idle_timeout := -1,
      dim_timeout := -1 }

end appletb

namespace applespi

/-! Constants from src/applespi.c (lines 44-97) and the Linux input key
codes used by the scancode and translation tables. -/

def PACKET_TYPE_READ : Nat := 0x20
def PACKET_TYPE_WRITE : Nat := 0x40
def PACKET_DEV_KEYB : Nat := 0x01
def PACKET_DEV_TPAD : Nat := 0x02

def MAX_ROLLOVER : Nat := 6
def MAX_FINGERS : Nat := 6
def MAX_FINGER_ORIENTATION : Int := 16384

def MIN_KBD_BL_LEVEL : Nat := 32
def MAX_KBD_BL_LEVEL : Nat := 255
def KBD_BL_LEVEL_SCALE : Nat := 1000000
def KBD_BL_LEVEL_ADJ : Nat :=
  (MAX_KBD_BL_LEVEL - MIN_KBD_BL_LEVEL) * KBD_BL_LEVEL_SCALE / 255

def EPIPE : Int := 32

def KEY_A : Nat := 30
def KEY_B : Nat := 48
def KEY_C : Nat := 46
def KEY_D : Nat := 32
def KEY_E : Nat := 18
def KEY_F : Nat := 33
def KEY_G : Nat := 34
def KEY_H : Nat := 35
def KEY_I : Nat := 23
def KEY_J : Nat := 36
def KEY_K : Nat := 37
def KEY_L : Nat := 38
def KEY_M : Nat := 50
def KEY_N : Nat := 49
def KEY_O : Nat := 24
def KEY_P : Nat := 25
def KEY_Q : Nat := 16
def KEY_R : Nat := 19
def KEY_S : Nat := 31
def KEY_T : Nat := 20
def KEY_U : Nat := 22
def KEY_V : Nat := 47
def KEY_W : Nat := 17
def KEY_X : Nat := 45
def KEY_Y : Nat := 21
def KEY_Z : Nat := 44
def KEY_1 : Nat := 2
def KEY_2 : Nat := 3
def KEY_3 : Nat := 4
def KEY_4 : Nat := 5
def KEY_5 : Nat := 6
def KEY_6 : Nat := 7
def KEY_7 : Nat := 8
def KEY_8 : Nat := 9
def KEY_9 : Nat := 10
def KEY_0 : Nat := 11
def KEY_ENTER : Nat := 28
def KEY_ESC : Nat := 1
def KEY_BACKSPACE : Nat := 14
def KEY_TAB : Nat := 15
def KEY_SPACE : Nat := 57
def KEY_MINUS : Nat := 12
def KEY_EQUAL : Nat := 13
def KEY_LEFTBRACE : Nat := 26
def KEY_RIGHTBRACE : Nat := 27
def KEY_BACKSLASH : Nat := 43
def KEY_SEMICOLON : Nat := 39
def KEY_APOSTROPHE : Nat := 40
def KEY_GRAVE : Nat := 41
def KEY_COMMA : Nat := 51
def KEY_DOT : Nat := 52
def KEY_SLASH : Nat := 53
def KEY_CAPSLOCK : Nat := 58
def KEY_F1 : Nat := 59
def KEY_F2 : Nat := 60
def KEY_F3 : Nat := 61
def KEY_F4 : Nat := 62
def KEY_F5 : Nat := 63
def KEY_F6 : Nat := 64
def KEY_F7 : Nat := 65
def KEY_F8 : Nat := 66
def KEY_F9 : Nat := 67
def KEY_F10 : Nat := 68
def KEY_F11 : Nat := 87
def KEY_F12 : Nat := 88
def KEY_RIGHT : Nat := 106
def KEY_LEFT : Nat := 105
def KEY_DOWN : Nat := 108
def KEY_UP : Nat := 103
def KEY_102ND : Nat := 86
def KEY_RO : Nat := 89
def KEY_YEN : Nat := 124
def KEY_KATAKANAHIRAGANA : Nat := 93
def KEY_MUHENKAN : Nat := 94
def KEY_LEFTCTRL : Nat := 29
def KEY_LEFTSHIFT : Nat := 42
def KEY_LEFTALT : Nat := 56
def KEY_LEFTMETA : Nat := 125
def KEY_RIGHTSHIFT : Nat := 54
def KEY_RIGHTALT : Nat := 100
def KEY_RIGHTMETA : Nat := 126
def KEY_FN : Nat := 464
def KEY_DELETE : Nat := 111
def KEY_INSERT : Nat := 110
def KEY_BRIGHTNESSDOWN : Nat := 224
def KEY_BRIGHTNESSUP : Nat := 225
def KEY_SCALE : Nat := 120
def KEY_DASHBOARD : Nat := 204
def KEY_KBDILLUMDOWN : Nat := 229
def KEY_KBDILLUMUP : Nat := 230
def KEY_PREVIOUSSONG : Nat := 165
def KEY_PLAYPAUSE : Nat := 164
def KEY_NEXTSONG : Nat := 163
def KEY_MUTE : Nat := 113
def KEY_VOLUMEDOWN : Nat := 114
def KEY_VOLUMEUP : Nat := 115
def KEY_END : Nat := 107
def KEY_HOME : Nat := 102
def KEY_PAGEDOWN : Nat := 109
def KEY_PAGEUP : Nat := 104

/-- State of struct applespi_data (src/applespi.c lines 193-240), restricted
to the command queue and keyboard-tracking fields. devm_kzalloc zeroes the
allocation, so the initial state below is all-zero. -/
structure ApplespiState where
  drain : Bool
  cmd_msg_queued : Bool
  init_cmd_idx : Int
  want_cl_led_on : Bool
  have_cl_led_on : Bool
  want_bl_level : Nat
  have_bl_level : Nat
  cmd_msg_cntr : Nat
  write_active : Bool
  read_active : Bool
  last_keys_pressed : List Nat
  last_keys_fn_pressed : List Nat
  last_fn_pressed : Nat
deriving DecidableEq, Repr

/-- The zeroed state produced by devm_kzalloc in applespi_probe (line 1097):
in particular init_cmd_idx = 0, so the init command sequence is pending. -/
def applespi_initial_state : ApplespiState :=
  { drain := false, cmd_msg_queued := false, init_cmd_idx := 0,
    want_cl_led_on := false, have_cl_led_on := false,
    want_bl_level := 0, have_bl_level := 0, cmd_msg_cntr := 0,
    write_active := false, read_active := false,
    last_keys_pressed := List.replicate MAX_ROLLOVER 0,
    last_keys_fn_pressed := List.replicate MAX_ROLLOVER 0,
    last_fn_pressed := 0 }

/-- Tail of applespi_send_cmd_msg (lines 701-718): applespi_async is invoked
(ok is true when it returned 0); only on success are cmd_msg_queued and
write_active set. The Bool result records that a transport send was
attempted. -/
def applespi_issue (s1 : ApplespiState) (ok : Bool) : ApplespiState × Bool :=
  if ok then ({ s1 with cmd_msg_queued := true, write_active := true }, true)
  else (s1, true)

/-- applespi_send_cmd_msg (lines 628-719). Called with the cmd_msg_lock
held. Picks the next needed command in fixed priority order (init sequence,
caps-lock LED, backlight), builds it (modelled by the state bookkeeping:
init_cmd_idx advance and wrap to -1 past the single init command,
have := want commits, sequence counter increment), and attempts the
asynchronous write. Nothing is attempted while draining, while a send is
already queued, or when everything is up to date. -/
def applespi_send_cmd_msg (s : ApplespiState) (ok : Bool) : ApplespiState × Bool :=
  if s.drain then (s, false)
  else if s.cmd_msg_queued then (s, false)
  else if s.init_cmd_idx ≥ 0 then
    applespi_issue
      { s with init_cmd_idx := if s.init_cmd_idx + 1 ≥ 1 then -1 else s.init_cmd_idx + 1 }
      ok
  else if s.want_cl_led_on ≠ s.have_cl_led_on then
    applespi_issue
      { s with have_cl_led_on := s.want_cl_led_on, cmd_msg_cntr := s.cmd_msg_cntr + 1 }
      ok
  else if s.want_bl_level ≠ s.have_bl_level then
    applespi_issue
      { s with have_bl_level := s.want_bl_level, cmd_msg_cntr := s.cmd_msg_cntr + 1 }
      ok
  else (s, false)

/-- Backlight level computation in applespi_set_bl_level (lines 760-765). -/
def applespi_bl_level_of (value : Nat) : Nat :=
  if value = 0 then 0
  else value * KBD_BL_LEVEL_ADJ / KBD_BL_LEVEL_SCALE + MIN_KBD_BL_LEVEL

/-- Events that drive the command queue, each one executed under
cmd_msg_lock. The ok flag of an event is the success of the applespi_async
call its applespi_send_cmd_msg makes, if one is reached. -/
inductive ApplespiEvent where
  | startInit (ok : Bool)
  | setCapsLed (led : Bool) (ok : Bool)
  | setBlLevel (value : Nat) (ok : Bool)
  | writeComplete (ok : Bool)
  | startDrain
deriving DecidableEq, Repr

def ApplespiEvent.okFlag : ApplespiEvent → Bool
  | .startInit ok => ok
  | .setCapsLed _ ok => ok
  | .setBlLevel _ ok => ok
  | .writeComplete ok => ok
  | .startDrain => false

def ApplespiEvent.isWriteComplete : ApplespiEvent → Bool
  | .writeComplete _ => true
  | _ => false

/-- One atomic critical section of the command queue. startInit is
applespi_init (lines 721-731), setCapsLed is applespi_set_capsl_led (lines
733-747), setBlLevel is applespi_set_bl_level (lines 749-770), writeComplete
is applespi_cmd_msg_complete (lines 601-611: clear cmd_msg_queued, then
re-evaluate by calling applespi_send_cmd_msg again), and startDrain is the
beginning of applespi_drain_writes (line 1279). The Bool result records
whether a transport send was attempted. -/
def applespi_step (s : ApplespiState) (e : ApplespiEvent) : ApplespiState × Bool :=
  match e with
  | .startInit ok => applespi_send_cmd_msg { s with init_cmd_idx := 0 } ok
  | .setCapsLed b ok => applespi_send_cmd_msg { s with want_cl_led_on := b } ok
  | .setBlLevel v ok =>
    applespi_send_cmd_msg { s with want_bl_level := applespi_bl_level_of v } ok
  | .writeComplete ok => applespi_send_cmd_msg { s with cmd_msg_queued := false } ok
  | .startDrain => ({ s with drain := true }, false)

/-- Reachable configurations of the command queue together with the number
of commands in flight on the transport (sends that were handed to the SPI
core and whose completion has not yet run). A writeComplete event can only
occur when a command is actually in flight; every other event may occur at
any time, in any interleaving. A successful attempted send adds one to the
in-flight count; a completion removes one and may add one back if the
re-evaluation issues the next command. -/
inductive ApplespiReach : ApplespiState → Nat → Prop where
  | init : ApplespiReach applespi_initial_state 0
  | request (s : ApplespiState) (n : Nat) (e : ApplespiEvent) :
      ApplespiReach s n → e.isWriteComplete = false →
      ApplespiReach (applespi_step s e).1
        (n + (if (applespi_step s e).2 && e.okFlag then 1 else 0))
  | complete (s : ApplespiState) (n : Nat) (ok : Bool) :
      ApplespiReach s n → 1 ≤ n →
      ApplespiReach (applespi_step s (.writeComplete ok)).1
        (n - 1 + (if (applespi_step s (.writeComplete ok)).2 && ok then 1 else 0))

/-- One shift round of the CRC-16 (lib/crc16.c, polynomial 0xA001,
reflected). -/
def crc16_round (c : Nat) : Nat :=
  if c % 2 = 1 then (c / 2) ^^^ 0xA001 else c / 2

/-- crc16_byte: fold one data byte into the running CRC. -/
def crc16_byte (crc data : Nat) : Nat :=
  Nat.iterate crc16_round 8 ((crc ^^^ data) % 65536)

/-- crc16 over a byte list with the given initial value (the driver always
passes 0). -/
def crc16 (crc : Nat) (data : List Nat) : Nat :=
  data.foldl crc16_byte crc

/-- struct keyboard_protocol (src/applespi.c lines 100-112), the driver's
view of a received 256-byte frame. Byte offsets: 0 packet_type, 1 device,
2-10 unknown1, 11 counter, 12-16 unknown2, 17 modifiers, 18 unknown3,
19-24 keys_pressed, 25 fn_pressed, 26-27 crc_16 (little endian). -/
structure keyboard_protocol where
  packet_type : Nat
  device : Nat
  unknown1 : List Nat
  counter : Nat
  unknown2 : List Nat
  modifiers : Nat
  unknown3 : Nat
  keys_pressed : List Nat
  fn_pressed : Nat
  crc_16 : Nat
deriving DecidableEq, Repr

/-- Modelled from the spec: the checksum span of a received data frame. The
SOURCE in src/applespi.c never validates the checksum of received frames
(applespi_got_data, lines 982-1043, acts on packet_type and device alone);
the spec describes a 16-bit CRC over a defined payload span, which for the
command frames built by applespi_send_cmd_msg starts at byte 8 and ends
just before the stored CRC. This function reproduces that span (bytes
8..25) for the keyboard frame layout so that a checksum mismatch can be
stated. -/
def keyboard_payload_span (kp : keyboard_protocol) : List Nat :=
  kp.unknown1.drop 6 ++ [kp.counter] ++ kp.unknown2 ++
    [kp.modifiers, kp.unknown3] ++ kp.keys_pressed ++ [kp.fn_pressed]

/-- applespi_scancodes (lines 242-259) with the Linux KEY values. -/
def applespi_scancodes : List Nat :=
  [0, 0, 0, 0,
   KEY_A, KEY_B, KEY_C, KEY_D, KEY_E, KEY_F, KEY_G, KEY_H, KEY_I, KEY_J,
   KEY_K, KEY_L, KEY_M, KEY_N, KEY_O, KEY_P, KEY_Q, KEY_R, KEY_S, KEY_T,
   KEY_U, KEY_V, KEY_W, KEY_X, KEY_Y, KEY_Z,
   KEY_1, KEY_2, KEY_3, KEY_4, KEY_5, KEY_6, KEY_7, KEY_8, KEY_9, KEY_0,
   KEY_ENTER, KEY_ESC, KEY_BACKSPACE, KEY_TAB, KEY_SPACE, KEY_MINUS,
   KEY_EQUAL, KEY_LEFTBRACE, KEY_RIGHTBRACE, KEY_BACKSLASH, 0,
   KEY_SEMICOLON, KEY_APOSTROPHE, KEY_GRAVE, KEY_COMMA, KEY_DOT, KEY_SLASH,
   KEY_CAPSLOCK,
   KEY_F1, KEY_F2, KEY_F3, KEY_F4, KEY_F5, KEY_F6, KEY_F7, KEY_F8, KEY_F9,
   KEY_F10, KEY_F11, KEY_F12, 0, 0, 0, 0, 0, 0, 0, 0, 0,
   KEY_RIGHT, KEY_LEFT, KEY_DOWN, KEY_UP,
   0, 0, 0, 0, 0, 0, 0, 0, 0, 0, 0, 0, 0, 0, 0, 0, 0, KEY_102ND,
   0, 0, 0, 0, 0, 0, 0, 0, 0, 0, 0, 0, 0, 0, 0, 0, 0, 0, 0, 0, 0, 0, 0,
   0, 0, 0, 0, 0, 0, 0, 0, 0, 0, 0, KEY_RO, 0, KEY_YEN, 0, 0, 0, 0, 0,
   0, KEY_KATAKANAHIRAGANA, KEY_MUHENKAN]

/-- applespi_controlcodes (lines 261-270): the 8 modifier keys in bit
order. -/
def applespi_controlcodes : List Nat :=
  [KEY_LEFTCTRL, KEY_LEFTSHIFT, KEY_LEFTALT, KEY_LEFTMETA,
   0, KEY_RIGHTSHIFT, KEY_RIGHTALT, KEY_RIGHTMETA]

/-- applespi_fn_codes (lines 278-298): from, to, and the APPLE_FLAG_FKEY
flag. -/
def applespi_fn_codes : List (Nat × Nat × Bool) :=
  [(KEY_BACKSPACE, KEY_DELETE, false),
   (KEY_ENTER, KEY_INSERT, false),
   (KEY_F1, KEY_BRIGHTNESSDOWN, true),
   (KEY_F2, KEY_BRIGHTNESSUP, true),
   (KEY_F3, KEY_SCALE, true),
   (KEY_F4, KEY_DASHBOARD, true),
   (KEY_F5, KEY_KBDILLUMDOWN, true),
   (KEY_F6, KEY_KBDILLUMUP, true),
   (KEY_F7, KEY_PREVIOUSSONG, true),
   (KEY_F8, KEY_PLAYPAUSE, true),
   (KEY_F9, KEY_NEXTSONG, true),
   (KEY_F10, KEY_MUTE, true),
   (KEY_F11, KEY_VOLUMEDOWN, true),
   (KEY_F12, KEY_VOLUMEUP, true),
   (KEY_RIGHT, KEY_END, false),
   (KEY_LEFT, KEY_HOME, false),
   (KEY_DOWN, KEY_PAGEDOWN, false),
   (KEY_UP, KEY_PAGEUP, false)]

/-- apple_iso_keyboard (lines 300-304). -/
def apple_iso_keyboard : List (Nat × Nat) :=
  [(KEY_GRAVE, KEY_102ND), (KEY_102ND, KEY_GRAVE)]

/-- applespi_code_to_key (lines 887-917). fnmode and iso_layout are the
module parameters (defaults 1 and 0). -/
def applespi_code_to_key (fnmode iso_layout : Nat) (code : Nat) (fn_pressed : Nat) : Nat :=
  let key := applespi_scancodes.getD code 0
  let key :=
    if fnmode ≠ 0 then
      match applespi_fn_codes.find? (fun t => t.1 == key) with
      | some t =>
        let do_translate :=
          if t.2.2 then
            (fnmode = 2 ∧ fn_pressed ≠ 0) ∨ (fnmode = 1 ∧ fn_pressed = 0)
          else fn_pressed ≠ 0
        if do_translate then t.2.1 else key
      | none => key
    else key
  if iso_layout ≠ 0 then
    match apple_iso_keyboard.find? (fun t => t.1 == key) with
    | some t => t.2
    | none => key
  else key

/-- An emitted input event of the SPI keyboard/touchpad device: a key report
or the closing input_sync. -/
inductive RawEv where
  | key (code : Nat) (value : Nat)
  | sync
deriving DecidableEq, Repr

/-- applespi_handle_keyboard_event (lines 919-970): releases for keys gone
from the report, presses for keys in the report, the 8 modifier states, the
synthetic Fn transition, input_sync, and the last_keys bookkeeping. -/
def applespi_handle_keyboard_event (s : ApplespiState) (kp : keyboard_protocol)
    (fnmode iso_layout : Nat) : ApplespiState × List RawEv :=
  let still_pressed := fun i =>
    (List.range 6).any (fun j => s.last_keys_pressed.getD i 0 == kp.keys_pressed.getD j 0)
  let releases := (List.range 6).filterMap (fun i =>
    if still_pressed i then none
    else some (RawEv.key
      (applespi_code_to_key fnmode iso_layout (s.last_keys_pressed.getD i 0)
        (s.last_keys_fn_pressed.getD i 0))
      0))
  let fn1 := (List.range 6).map (fun i =>
    if still_pressed i then s.last_keys_fn_pressed.getD i 0 else 0)
  let key_ok := fun i =>
    kp.keys_pressed.getD i 0 < applespi_scancodes.length ∧ kp.keys_pressed.getD i 0 > 0
  let presses := (List.range 6).filterMap (fun i =>
    if key_ok i then
      some (RawEv.key
        (applespi_code_to_key fnmode iso_layout (kp.keys_pressed.getD i 0) kp.fn_pressed)
        1)
    else none)
  let fn2 := (List.range 6).map (fun i =>
    if key_ok i then kp.fn_pressed else fn1.getD i 0)
  let mods := (List.range 8).map (fun i =>
    RawEv.key (applespi_controlcodes.getD i 0) (if kp.modifiers.testBit i then 1 else 0))
  let fnev : List RawEv :=
    if kp.fn_pressed ≠ 0 ∧ s.last_fn_pressed = 0 then [RawEv.key KEY_FN 1]
    else if kp.fn_pressed = 0 ∧ s.last_fn_pressed ≠ 0 then [RawEv.key KEY_FN 0]
    else []
  ({ s with last_keys_pressed := kp.keys_pressed,
            last_keys_fn_pressed := fn2,
            last_fn_pressed := kp.fn_pressed },
   releases ++ presses ++ mods ++ fnev ++ [RawEv.sync])

/-- The four ways applespi_got_data (lines 982-1043) routes a received
frame. -/
inductive GotDataKind where
  | keyboard
  | touchpad
  | cmdResponse
  | unknown
deriving DecidableEq, Repr

/-- Frame dispatch of applespi_got_data: purely a function of packet_type
and device. -/
def applespi_got_data_kind (packet_type device : Nat) : GotDataKind :=
  if packet_type = PACKET_TYPE_READ ∧ device = PACKET_DEV_KEYB then .keyboard
  else if packet_type = PACKET_TYPE_READ ∧ device = PACKET_DEV_TPAD then .touchpad
  else if packet_type = PACKET_TYPE_WRITE then .cmdResponse
  else .unknown

/-- Keyboard path of applespi_got_data: a frame routed as a keyboard read is
handed to applespi_handle_keyboard_event unconditionally; any other routing
emits no keyboard events. -/
def applespi_got_data_events (s : ApplespiState) (kp : keyboard_protocol)
    (fnmode iso_layout : Nat) : ApplespiState × List RawEv :=
  if applespi_got_data_kind kp.packet_type kp.device = GotDataKind.keyboard then
    applespi_handle_keyboard_event s kp fnmode iso_layout
  else (s, [])

/-- applespi_check_write_status (lines 461-477): a write completion is good
iff the SPI status was non-negative and the 4 status bytes equal the magic
ok pattern. -/
def applespi_check_write_status (sts : Int) (tx_status : List Nat) : Bool :=
  if sts < 0 then false
  else if tx_status ≠ [0xac, 0x27, 0x68, 0xd5] then false
  else true

/-- struct tp_finger (lines 115-130): raw little-endian u16 fields. -/
structure tp_finger where
  origin : Nat
  abs_x : Nat
  abs_y : Nat
  rel_x : Nat
  rel_y : Nat
  tool_major : Nat
  tool_minor : Nat
  orientation : Nat
  touch_major : Nat
  touch_minor : Nat
  pressure : Nat
  multi : Nat
deriving DecidableEq, Repr

/-- An all-zero finger record. -/
def tp_finger_zero : tp_finger :=
  { origin := 0, abs_x := 0, abs_y := 0, rel_x := 0, rel_y := 0,
    tool_major := 0, tool_minor := 0, orientation := 0,
    touch_major := 0, touch_minor := 0, pressure := 0, multi := 0 }

/-- struct touchpad_protocol (lines 132-148), restricted to the fields the
driver reads. -/
structure touchpad_protocol where
  packet_type : Nat
  device : Nat
  number_of_fingers : Nat
  clicked : Nat
  fingers : List tp_finger
deriving DecidableEq, Repr

/-- struct applespi_tp_info (lines 186-191): the touchpad coordinate
calibration. -/
structure applespi_tp_info where
  x_min : Int
  x_max : Int
  y_min : Int
  y_max : Int
deriving DecidableEq, Repr

/-- applespi_default_info (line 311). -/
def applespi_default_info : applespi_tp_info :=
  { x_min := -5087, x_max := 5579, y_min := -182, y_max := 6089 }

/-- raw2int (lines 790-793): little-endian u16 reinterpreted as a signed
short. -/
def raw2int (x : Nat) : Int :=
  if x % 65536 < 32768 then (x % 65536 : Int) else (x % 65536 : Int) - 65536

/-- One contact report: the input_mt_slot plus the input_report_abs values
emitted by report_finger_data (lines 795-814). -/
structure ContactReport where
  slot : Int
  touch_major : Int
  touch_minor : Int
  width_major : Int
  width_minor : Int
  orientation : Int
  pos_x : Int
  pos_y : Int
deriving DecidableEq, Repr

/-- report_finger_data (lines 795-814): axes doubled (raw << 1), orientation
flipped against MAX_FINGER_ORIENTATION, position taken from the pos
entry. -/
def report_finger_data (slot : Int) (pos : Int × Int) (f : tp_finger) : ContactReport :=
  { slot := slot,
    touch_major := raw2int f.touch_major * 2,
    touch_minor := raw2int f.touch_minor * 2,
    width_major := raw2int f.tool_major * 2,
    width_minor := raw2int f.tool_minor * 2,
    orientation := MAX_FINGER_ORIENTATION - raw2int f.orientation,
    pos_x := pos.1,
    pos_y := pos.2 }

/-- report_tp_state (lines 816-873). The first loop walks all MAX_FINGERS
records and collects, in order, the positions of the fingers with non-zero
touch_major (Y remapped through y_min + y_max - raw_y). The kernel then
assigns slots (input_mt_assign_slots, external; modelled by the slots
function) and the second loop calls report_finger_data for i < n with
pos[i] but the finger record t.fingers[i] at the raw index i. Returns the
contact reports and the BTN_LEFT value. -/
def report_tp_state (slots : Nat → Int) (tp_info : applespi_tp_info)
    (t : touchpad_protocol) : List ContactReport × Bool :=
  let pos := ((t.fingers.take MAX_FINGERS).filter
      (fun f => raw2int f.touch_major != 0)).map
    (fun f => (raw2int f.abs_x, tp_info.y_min + tp_info.y_max - raw2int f.abs_y))
  let n := pos.length
  ((List.range n).map (fun i =>
      report_finger_data (slots i) (pos.getD i (0, 0)) (t.fingers.getD i tp_finger_zero)),
   t.clicked ≠ 0)

/-- A keyboard read frame (packet_type 0x20, device 1) whose stored crc_16
(0) does not match the CRC-16 of its payload span: the counter byte is 1,
so the span CRC is 193. -/
def kb_bad_crc : keyboard_protocol :=
  { packet_type := PACKET_TYPE_READ, device := PACKET_DEV_KEYB,
    unknown1 := List.replicate 9 0, counter := 1,
    unknown2 := List.replicate 5 0, modifiers := 0, unknown3 := 0,
    keys_pressed := List.replicate 6 0, fn_pressed := 0, crc_16 := 0 }

/-- A touchpad frame in which finger record 0 is absent (touch_major 0) and
finger record 1 is the only active finger, with distinctive position and
orientation values. -/
def tp_frame_bug : touchpad_protocol :=
  { packet_type := PACKET_TYPE_READ, device := PACKET_DEV_TPAD,
    number_of_fingers := 1, clicked := 0,
    fingers := [tp_finger_zero,
      { tp_finger_zero with touch_major := 2, touch_minor := 3,
                            abs_x := 5, abs_y := 7, orientation := 200 },
      tp_finger_zero, tp_finger_zero, tp_finger_zero, tp_finger_zero] }

end applespi

/-! Theorems. Each claim of the specification is settled by one theorem
below (with a witness when the theorem carries hypotheses, and a
counterexample where the claim fails on the code). -/

namespace appletb

/-- Preservation lemma: appletb_update_touchbar_no_lock only writes the two
pending slots; every other field is unchanged. -/
theorem update_touchbar_no_lock_preserves (s : AppletbDevice) (force : Bool) :
    (appletb_update_touchbar_no_lock s force).1.cur_tb_mode = s.cur_tb_mode ∧
    (appletb_update_touchbar_no_lock s force).1.cur_tb_disp = s.cur_tb_disp ∧
    (appletb_update_touchbar_no_lock s force).1.active = s.active ∧
    (appletb_update_touchbar_no_lock s force).1.dim_timeout = s.dim_timeout ∧
    (appletb_update_touchbar_no_lock s force).1.idle_timeout = s.idle_timeout ∧
    (appletb_update_touchbar_no_lock s force).1.dim_to_is_calc = s.dim_to_is_calc ∧
    (appletb_update_touchbar_no_lock s force).1.fn_mode = s.fn_mode ∧
    (appletb_update_touchbar_no_lock s force).1.last_tb_keys_pressed =
      s.last_tb_keys_pressed ∧
    (appletb_update_touchbar_no_lock s force).1.last_tb_keys_translated =
      s.last_tb_keys_translated := by
  simp only [appletb_update_touchbar_no_lock]
  split_ifs <;> simp

/-- Claim C5: setting dim_timeout to the derive sentinel -2 makes the
effective dim timeout equal idle_timeout - min(30, idle_timeout/3) with C
integer arithmetic, the derived value is recomputed on every change of
idle_timeout while the derive flag is set, and in particular idle_timeout
300 yields 270 and idle_timeout 60 yields 40. -/
theorem appletb_dim_timeout_derivation :
    (∀ s : AppletbDevice,
       (appletb_set_dim_timeout s (-2)).dim_to_is_calc = true ∧
       (appletb_set_dim_timeout s (-2)).dim_timeout =
         s.idle_timeout - min 30 (Int.tdiv s.idle_timeout 3)) ∧
    (∀ (s : AppletbDevice) (n : Int), s.dim_to_is_calc = true →
       (appletb_set_idle_timeout s n).idle_timeout = n ∧
       (appletb_set_idle_timeout s n).dim_timeout = n - min 30 (Int.tdiv n 3)) ∧
    (∀ s : AppletbDevice, s.dim_to_is_calc = true →
       (appletb_set_idle_timeout s 300).dim_timeout = 270 ∧
       (appletb_set_idle_timeout s 60).dim_timeout = 40) := by
  refine ⟨fun s => ?_, fun s n h => ?_, fun s h => ?_⟩
  · simp [appletb_set_dim_timeout, appletb_set_idle_timeout, APPLETB_MAX_DIM_TIME]
  · simp [appletb_set_idle_timeout, APPLETB_MAX_DIM_TIME, h]
  · simp [appletb_set_idle_timeout, APPLETB_MAX_DIM_TIME, h]
    constructor <;> decide

/-- Witness for appletb_dim_timeout_derivation, at the default device state
(whose dim timeout is in derived mode) and idle timeouts 300 and 60. -/
theorem appletb_dim_timeout_derivation_witness :
    (appletb_set_idle_timeout tbBase 300).dim_timeout = 270 ∧
    (appletb_set_idle_timeout tbBase 60).dim_timeout = 40 :=
  appletb_dim_timeout_derivation.2.2 tbBase (by decide)

/-- Counterexample to claim C4: with fn_swap_mode 0 the code always yields
APPLETB_CMD_MODE_FN (the F-key layout), while the claim states mode 0
always yields the function-row (special-keys) meaning,
APPLETB_CMD_MODE_SPCL. -/
theorem appletb_fn_mode_table_cex :
    appletb_get_fn_tb_mode { tbBase with fn_mode := 0 } = APPLETB_CMD_MODE_FN ∧
    appletb_fn_tb_mode_claimed 0 false = APPLETB_CMD_MODE_SPCL ∧
    APPLETB_CMD_MODE_FN ≠ APPLETB_CMD_MODE_SPCL := by
  refine ⟨by decide, by decide, by decide⟩

/-- Claim C4 as amended: the code's table is mode 0 = always the F-key
layout, mode 1 = F-key layout when Fn is held and special-keys layout
otherwise, mode 2 = the inverse of mode 1, and mode 3 = always the
special-keys layout; that is, the claim's rows for modes 1 and 2 hold and
its rows for modes 0 and 3 are swapped. -/
theorem appletb_fn_mode_table_amended :
    ∀ s : AppletbDevice,
      (s.fn_mode = APPLETB_FN_MODE_FKEYS →
        appletb_get_fn_tb_mode s = APPLETB_CMD_MODE_FN) ∧
      (s.fn_mode = APPLETB_FN_MODE_NORM →
        appletb_get_fn_tb_mode s =
          if s.last_fn_pressed then APPLETB_CMD_MODE_FN else APPLETB_CMD_MODE_SPCL) ∧
      (s.fn_mode = APPLETB_FN_MODE_INV →
        appletb_get_fn_tb_mode s =
          if s.last_fn_pressed then APPLETB_CMD_MODE_SPCL else APPLETB_CMD_MODE_FN) ∧
      (s.fn_mode = APPLETB_FN_MODE_SPCL →
        appletb_get_fn_tb_mode s = APPLETB_CMD_MODE_SPCL) := by
  intro s
  refine ⟨fun h => ?_, fun h => ?_, fun h => ?_, fun h => ?_⟩ <;>
    simp [appletb_get_fn_tb_mode, h, APPLETB_FN_MODE_FKEYS, APPLETB_FN_MODE_NORM,
          APPLETB_FN_MODE_INV, APPLETB_FN_MODE_SPCL]

/-- Witness for appletb_fn_mode_table_amended at fn_mode 0. -/
theorem appletb_fn_mode_table_amended_witness :
    appletb_get_fn_tb_mode { tbBase with fn_mode := 0 } = APPLETB_CMD_MODE_FN :=
  (appletb_fn_mode_table_amended { tbBase with fn_mode := 0 }).1 (by decide)

/-- Counterexample to claim C3: at a state where a touch bar key is pressed
and the desired mode (APPLETB_CMD_MODE_FN, from fn_mode 0) differs from the
effective mode (APPLETB_CMD_MODE_SPCL), an update with force = true leaves
the pending mode slot at the NONE sentinel instead of setting it to the
desired mode: force does not bypass the key-pressed suppression of the
pending-slot assignment. -/
theorem appletb_force_does_not_set_pending_cex :
    appletb_any_tb_key_pressed tb_key_pressed_state = true ∧
    appletb_get_cur_tb_mode tb_key_pressed_state ≠
      appletb_get_fn_tb_mode tb_key_pressed_state ∧
    (appletb_update_touchbar_no_lock tb_key_pressed_state true).1.pnd_tb_mode =
      APPLETB_CMD_MODE_NONE ∧
    (appletb_update_touchbar_no_lock tb_key_pressed_state true).1.pnd_tb_mode ≠
      appletb_get_fn_tb_mode tb_key_pressed_state := by
  refine ⟨by decide, by decide, by decide, by decide⟩

/-- Claim C3 as amended: while any touch bar key is marked pressed, the
pending mode slot is never written, with or without force (so if it was
unset it stays unset); the force flag does not bypass the suppression rules
for the pending slots, it only forces need_update, i.e. it forces the
worker to be scheduled. -/
theorem appletb_update_suppression_amended :
    ∀ (s : AppletbDevice) (force : Bool),
      appletb_any_tb_key_pressed s = true →
      (appletb_update_touchbar_no_lock s force).1.pnd_tb_mode = s.pnd_tb_mode ∧
      (force = true → (appletb_update_touchbar_no_lock s force).2 = true) := by
  intro s force h
  simp only [appletb_update_touchbar_no_lock, h]
  constructor
  · split_ifs <;> simp_all
  · intro hf
    simp [hf]

/-- Witness for appletb_update_suppression_amended at the concrete
key-pressed state with force = true. -/
theorem appletb_update_suppression_amended_witness :
    (appletb_update_touchbar_no_lock tb_key_pressed_state true).1.pnd_tb_mode =
      tb_key_pressed_state.pnd_tb_mode ∧
    (true = true → (appletb_update_touchbar_no_lock tb_key_pressed_state true).2 = true) :=
  appletb_update_suppression_amended tb_key_pressed_state true (by decide)

end appletb

namespace appletb

/-- Preservation lemma: appletb_update_touchbar changes at most the pending
slots, never the settings. -/
theorem update_touchbar_preserves (s : AppletbDevice) (force : Bool) :
    (appletb_update_touchbar s force).1.dim_timeout = s.dim_timeout ∧
    (appletb_update_touchbar s force).1.idle_timeout = s.idle_timeout ∧
    (appletb_update_touchbar s force).1.dim_to_is_calc = s.dim_to_is_calc ∧
    (appletb_update_touchbar s force).1.fn_mode = s.fn_mode := by
  rcases update_touchbar_no_lock_preserves s force with ⟨_, _, _, h4, h5, h6, h7, _, _⟩
  simp only [appletb_update_touchbar]
  split <;> simp_all

/-- Counterexample to claim C9: at a settled active state, the in-range
write of fn_mode 2 is accepted (rc 0, setting updated) but the
re-derivation it triggers is not forced: appletb_update_touchbar is called
with force = false, and here it schedules nothing, whereas a forced
re-derivation at the same state would have scheduled the worker. -/
theorem appletb_fnmode_store_not_forced_cex :
    (fnmode_store tb_settled_state (some 2)).rc = 0 ∧
    (fnmode_store tb_settled_state (some 2)).dev.fn_mode = 2 ∧
    (fnmode_store tb_settled_state (some 2)).upd = some (false, false) ∧
    (appletb_update_touchbar { tb_settled_state with fn_mode := 2 } true).2 = true := by
  refine ⟨by decide, by decide, by decide, by decide⟩

/-- Claim C9 as amended: a parse failure or out-of-range value (idle_timeout
below -1, dim_timeout below -2, fn_mode outside 0..3, or above INT_MAX)
returns -EINVAL with the device state unchanged and no re-derivation; an
in-range write is accepted with the setting updated, and triggers
re-derivation of the desired state - forced for the idle_timeout and
dim_timeout stores, but NOT forced for the fn_mode store. -/
theorem appletb_config_store_amended :
    (∀ s : AppletbDevice,
       dim_timeout_store s none = { rc := -EINVAL, dev := s, upd := none } ∧
       idle_timeout_store s none = { rc := -EINVAL, dev := s, upd := none } ∧
       fnmode_store s none = { rc := -EINVAL, dev := s, upd := none }) ∧
    (∀ (s : AppletbDevice) (v : Int), v > INT_MAX ∨ v < -2 →
       dim_timeout_store s (some v) = { rc := -EINVAL, dev := s, upd := none }) ∧
    (∀ (s : AppletbDevice) (v : Int), v > INT_MAX ∨ v < -1 →
       idle_timeout_store s (some v) = { rc := -EINVAL, dev := s, upd := none }) ∧
    (∀ (s : AppletbDevice) (v : Int), v > APPLETB_FN_MODE_MAX ∨ v < 0 →
       fnmode_store s (some v) = { rc := -EINVAL, dev := s, upd := none }) ∧
    (∀ (s : AppletbDevice) (v : Int), ¬(v > INT_MAX ∨ v < -2) →
       (dim_timeout_store s (some v)).rc = 0 ∧
       (dim_timeout_store s (some v)).dev.dim_timeout =
         (if v = -2 then s.idle_timeout - min 30 (Int.tdiv s.idle_timeout 3) else v) ∧
       (dim_timeout_store s (some v)).upd.map Prod.fst = some true) ∧
    (∀ (s : AppletbDevice) (v : Int), ¬(v > INT_MAX ∨ v < -1) →
       (idle_timeout_store s (some v)).rc = 0 ∧
       (idle_timeout_store s (some v)).dev.idle_timeout = v ∧
       (idle_timeout_store s (some v)).upd.map Prod.fst = some true) ∧
    (∀ (s : AppletbDevice) (v : Int), ¬(v > APPLETB_FN_MODE_MAX ∨ v < 0) →
       (fnmode_store s (some v)).rc = 0 ∧
       (fnmode_store s (some v)).dev.fn_mode = v ∧
       (fnmode_store s (some v)).upd.map Prod.fst = some false) := by
  refine ⟨fun s => ⟨rfl, rfl, rfl⟩,
          fun s v h => by simp [dim_timeout_store, h],
          fun s v h => by simp [idle_timeout_store, h],
          fun s v h => by simp [fnmode_store, h],
          fun s v h => ?_, fun s v h => ?_, fun s v h => ?_⟩
  · have hd := update_touchbar_preserves (appletb_set_dim_timeout s v) true
    refine ⟨by simp [dim_timeout_store, h], ?_, by simp [dim_timeout_store, h]⟩
    simp only [dim_timeout_store, h, if_false]
    rw [hd.1]
    by_cases hv : v = -2
    · simp [appletb_set_dim_timeout, appletb_set_idle_timeout, hv, APPLETB_MAX_DIM_TIME]
    · simp [appletb_set_dim_timeout, hv]
  · have hd := update_touchbar_preserves (appletb_set_idle_timeout s v) true
    refine ⟨by simp [idle_timeout_store, h], ?_, by simp [idle_timeout_store, h]⟩
    simp only [idle_timeout_store, h, if_false]
    rw [hd.2.1]
    simp only [appletb_set_idle_timeout]
    split <;> rfl
  · have hd := update_touchbar_preserves { s with fn_mode := v } false
    refine ⟨by simp [fnmode_store, h], ?_, by simp [fnmode_store, h]⟩
    simp only [fnmode_store, h, if_false]
    rw [hd.2.2.2]

/-- Witness for appletb_config_store_amended: a below-range dim_timeout
write is rejected unchanged, and an in-range fn_mode write runs the
re-derivation unforced. -/
theorem appletb_config_store_amended_witness :
    dim_timeout_store tbBase (some (-3)) = { rc := -EINVAL, dev := tbBase, upd := none } ∧
    (fnmode_store tbBase (some 2)).upd.map Prod.fst = some false :=
  ⟨appletb_config_store_amended.2.1 tbBase (-3) (by decide),
   (appletb_config_store_amended.2.2.2.2.2.2 tbBase 2 (by decide)).2.2⟩

/-- Claim C10: an event on one of the 13 touch bar key slots, arriving while
the device is active and the current mode is OFF or the current display is
OFF, is consumed (the handler returns 1) and replaced by a dummy
KEY_UNKNOWN press followed by a release, so that a touch on a dark touch
bar wakes the screen without typing anything. -/
theorem appletb_dummy_key_when_off :
    ∀ (s : AppletbDevice) (usage_type usage_code : Nat) (value now : Int),
      0 ≤ appletb_tb_key_to_slot usage_code →
      s.active = true →
      (s.cur_tb_mode = APPLETB_CMD_MODE_OFF ∨ s.cur_tb_disp = APPLETB_CMD_DISP_OFF) →
      (appletb_hid_key_event s usage_type usage_code value now).1 = 1 ∧
      (appletb_hid_key_event s usage_type usage_code value now).2.2 =
        [{ type := EV_KEY, code := KEY_UNKNOWN, value := 1 },
         { type := EV_KEY, code := KEY_UNKNOWN, value := 0 }] := by
  intro s t c v now hslot hact hoff
  have hns : ¬ appletb_tb_key_to_slot c < 0 := not_lt.mpr hslot
  have hact' : ¬ s.active = false := by simp [hact]
  by_cases h1 : t = EV_KEY ∧ v ≠ 2
  · simp only [appletb_hid_key_event, if_neg hns, if_neg hact', if_pos h1]
    split
    · exact ⟨rfl, rfl⟩
    · rename_i hc
      exfalso
      rcases hoff with h | h
      · exact hc (Or.inl (by rw [(update_touchbar_no_lock_preserves _ false).1]; exact h))
      · exact hc (Or.inr (by rw [(update_touchbar_no_lock_preserves _ false).2.1]; exact h))
  · simp only [appletb_hid_key_event, if_neg hns, if_neg hact', if_neg h1]
    split
    · exact ⟨rfl, rfl⟩
    · rename_i hc
      exfalso
      rcases hoff with h | h
      · exact hc (Or.inl (by rw [(update_touchbar_no_lock_preserves _ false).1]; exact h))
      · exact hc (Or.inr (by rw [(update_touchbar_no_lock_preserves _ false).2.1]; exact h))

/-- Witness for appletb_dummy_key_when_off: an ESC press while the current
mode is OFF. -/
theorem appletb_dummy_key_when_off_witness :
    (appletb_hid_key_event { tbBase with cur_tb_mode := APPLETB_CMD_MODE_OFF }
        EV_KEY KEY_ESC 1 5).1 = 1 ∧
    (appletb_hid_key_event { tbBase with cur_tb_mode := APPLETB_CMD_MODE_OFF }
        EV_KEY KEY_ESC 1 5).2.2 =
      [{ type := EV_KEY, code := KEY_UNKNOWN, value := 1 },
       { type := EV_KEY, code := KEY_UNKNOWN, value := 0 }] :=
  appletb_dummy_key_when_off _ EV_KEY KEY_ESC 1 5 (by decide) (by decide)
    (Or.inl (by decide))

end appletb

namespace appletb

/-- The retry loop never makes more than max (tries + 1) 5 attempts. -/
theorem send_hid_report_loop_tries_le (res : Nat → Int) :
    ∀ (fuel tries : Nat),
      (appletb_send_hid_report_loop res tries fuel).2.1 ≤ max (tries + 1) 5 := by
  intro fuel
  induction fuel with
  | zero => intro tries; simp [appletb_send_hid_report_loop]
  | succ n ih =>
    intro tries
    simp only [appletb_send_hid_report_loop]
    split_ifs with h1 h2
    · exact le_trans (ih (tries + 1))
        (max_le (le_max_of_le_right (by omega)) (le_max_right _ _))
    · exact le_max_left _ _
    · exact le_max_left _ _

/-- Claim C8: a send whose transport write fails with -EPIPE is retried, 5
attempts in all, with a usleep_range between attempts whose bounds are
1000 << i to 3000 << i microseconds (base 1, 2, 4, 8, 16 ms, jitter band
up to 3 times the base); the first non-EPIPE result stops the retrying
immediately, and after the 5th EPIPE the function gives up with -EPIPE
(after the final 16 ms-based sleep). -/
theorem appletb_send_hid_report_retry :
    (∀ res : Nat → Int, (appletb_send_hid_report res).2.1 ≤ 5) ∧
    (∀ (res : Nat → Int) (k : Nat), k < 5 → (∀ j, j < k → res j = -EPIPE) →
       res k ≠ -EPIPE →
       appletb_send_hid_report res =
         ((if res k > 0 then 0 else res k), k + 1,
          (List.range k).map (fun i => (1000 * 2 ^ i, 3000 * 2 ^ i)))) ∧
    (∀ res : Nat → Int, (∀ j, j < 5 → res j = -EPIPE) →
       appletb_send_hid_report res =
         (-EPIPE, 5, (List.range 5).map (fun i => (1000 * 2 ^ i, 3000 * 2 ^ i)))) := by
  refine ⟨fun res => ?_, fun res k hk hall hk5 => ?_, fun res hall => ?_⟩
  · simpa using send_hid_report_loop_tries_le res 5 0
  · interval_cases k
    · simp [appletb_send_hid_report, appletb_send_hid_report_loop, hk5]
    · have h0 := hall 0 (by omega)
      simp [appletb_send_hid_report, appletb_send_hid_report_loop, h0, hk5,
            List.range_succ]
    · have h0 := hall 0 (by omega)
      have h1 := hall 1 (by omega)
      simp [appletb_send_hid_report, appletb_send_hid_report_loop, h0, h1, hk5,
            List.range_succ]
    · have h0 := hall 0 (by omega)
      have h1 := hall 1 (by omega)
      have h2 := hall 2 (by omega)
      simp [appletb_send_hid_report, appletb_send_hid_report_loop, h0, h1, h2, hk5,
            List.range_succ]
    · have h0 := hall 0 (by omega)
      have h1 := hall 1 (by omega)
      have h2 := hall 2 (by omega)
      have h3 := hall 3 (by omega)
      simp [appletb_send_hid_report, appletb_send_hid_report_loop, h0, h1, h2, h3, hk5,
            List.range_succ]
  · have h0 := hall 0 (by omega)
    have h1 := hall 1 (by omega)
    have h2 := hall 2 (by omega)
    have h3 := hall 3 (by omega)
    have h4 := hall 4 (by omega)
    simp [appletb_send_hid_report, appletb_send_hid_report_loop, h0, h1, h2, h3, h4,
          EPIPE, List.range_succ]

/-- Witness for appletb_send_hid_report_retry: three EPIPE failures followed
by a 7-byte success give 4 attempts, three backoff sleeps and a 0 return. -/
theorem appletb_send_hid_report_retry_witness :
    appletb_send_hid_report (fun i => if i < 3 then -EPIPE else 7) =
      (0, 4, [(1000, 3000), (2000, 6000), (4000, 12000)]) := by
  have h := appletb_send_hid_report_retry.2.1 (fun i => if i < 3 then -EPIPE else 7) 3
    (by omega) (fun j hj => by simp [hj]) (by decide)
  simpa [List.range_succ] using h

end appletb

namespace appletb

/-- Claim C2: in a worker run that successfully sent a pending mode
(respectively display) command, the second critical section commits the
sent value to the current slot; the pending slot is cleared when it still
holds the value just sent, and is left unchanged (hence still set) when it
was superseded mid-flight, in which case need_reschedule is raised and the
worker reschedules itself at zero delay, so the superseded value is only
deferred to the next run, never dropped. -/
theorem appletb_worker_commit_or_reschedule :
    ∀ (s : AppletbDevice) (pm pd : Nat) (rc1 rc2 now : Int) (disp_ok : Bool),
      (rc1 = 0 → pm ≠ APPLETB_CMD_MODE_NONE →
        ((s.pnd_tb_mode = pm →
           (appletb_set_tb_worker_locked2 s pm pd rc1 rc2 now).dev.pnd_tb_mode =
             APPLETB_CMD_MODE_NONE ∧
           (appletb_set_tb_worker_locked2 s pm pd rc1 rc2 now).dev.cur_tb_mode = pm) ∧
         (s.pnd_tb_mode ≠ pm →
           (appletb_set_tb_worker_locked2 s pm pd rc1 rc2 now).dev.pnd_tb_mode =
             s.pnd_tb_mode ∧
           (appletb_set_tb_worker_locked2 s pm pd rc1 rc2 now).need_reschedule = true ∧
           (appletb_set_tb_worker_post
             (appletb_set_tb_worker_locked2 s pm pd rc1 rc2 now) disp_ok).2 = some 0))) ∧
      (rc2 = 0 → pd ≠ APPLETB_CMD_DISP_NONE →
        ((s.pnd_tb_disp = pd →
           (appletb_set_tb_worker_locked2 s pm pd rc1 rc2 now).dev.pnd_tb_disp =
             APPLETB_CMD_DISP_NONE ∧
           (appletb_set_tb_worker_locked2 s pm pd rc1 rc2 now).dev.cur_tb_disp = pd) ∧
         (s.pnd_tb_disp ≠ pd →
           (appletb_set_tb_worker_locked2 s pm pd rc1 rc2 now).dev.pnd_tb_disp =
             s.pnd_tb_disp ∧
           (appletb_set_tb_worker_locked2 s pm pd rc1 rc2 now).need_reschedule = true ∧
           (appletb_set_tb_worker_post
             (appletb_set_tb_worker_locked2 s pm pd rc1 rc2 now) disp_ok).2 = some 0))) := by
  intro s pm pd rc1 rc2 now disp_ok
  constructor
  · intro h1 hpm
    subst h1
    constructor
    · intro heq
      by_cases h2 : rc2 = 0 <;>
        simp [appletb_set_tb_worker_locked2, heq, h2]
    · intro hne
      have hb : (s.pnd_tb_mode != pm) = true := bne_iff_ne.mpr hne
      by_cases h2 : rc2 = 0 <;>
        simp [appletb_set_tb_worker_locked2, appletb_set_tb_worker_post, hne, hb, h2]
  · intro h2 hpd
    subst h2
    constructor
    · intro heq
      by_cases h1 : rc1 = 0 <;>
        simp [appletb_set_tb_worker_locked2, heq, h1]
    · intro hne
      have hb : (s.pnd_tb_disp != pd) = true := bne_iff_ne.mpr hne
      by_cases h1 : rc1 = 0 <;>
        simp [appletb_set_tb_worker_locked2, appletb_set_tb_worker_post, hne, hb, h1]

/-- Witness for appletb_worker_commit_or_reschedule: a successful mode send
of APPLETB_CMD_MODE_FN whose pending slot still holds that value is
committed and cleared. -/
theorem appletb_worker_commit_or_reschedule_witness :
    (appletb_set_tb_worker_locked2 { tbBase with pnd_tb_mode := APPLETB_CMD_MODE_FN }
        APPLETB_CMD_MODE_FN APPLETB_CMD_DISP_NONE 0 1 0).dev.pnd_tb_mode =
      APPLETB_CMD_MODE_NONE ∧
    (appletb_set_tb_worker_locked2 { tbBase with pnd_tb_mode := APPLETB_CMD_MODE_FN }
        APPLETB_CMD_MODE_FN APPLETB_CMD_DISP_NONE 0 1 0).dev.cur_tb_mode =
      APPLETB_CMD_MODE_FN :=
  ((appletb_worker_commit_or_reschedule { tbBase with pnd_tb_mode := APPLETB_CMD_MODE_FN }
      APPLETB_CMD_MODE_FN APPLETB_CMD_DISP_NONE 0 1 0 true).1 rfl (by decide)).1 rfl

end appletb

namespace applespi

/-- A transport send is only attempted when no send is queued. -/
theorem send_cmd_msg_attempt (s : ApplespiState) (ok : Bool) :
    (applespi_send_cmd_msg s ok).2 = true → s.cmd_msg_queued = false := by
  simp only [applespi_send_cmd_msg, applespi_issue]
  split_ifs <;> simp_all

/-- After applespi_send_cmd_msg the queued flag is set iff it was already
set or a send was attempted and the async submission succeeded. -/
theorem send_cmd_msg_queued_iff (s : ApplespiState) (ok : Bool) :
    (applespi_send_cmd_msg s ok).1.cmd_msg_queued = true ↔
      (s.cmd_msg_queued = true ∨
       ((applespi_send_cmd_msg s ok).2 = true ∧ ok = true)) := by
  simp only [applespi_send_cmd_msg, applespi_issue]
  split_ifs <;> simp_all

/-- Inductive step of the in-flight invariant: one applespi_send_cmd_msg
call from a state satisfying the invariant preserves it. -/
theorem invariant_step_send (s1 : ApplespiState) (ok : Bool) (n : Nat)
    (hle : n ≤ 1) (hiff : s1.cmd_msg_queued = true ↔ n = 1) :
    n + (if (applespi_send_cmd_msg s1 ok).2 && ok then 1 else 0) ≤ 1 ∧
    ((applespi_send_cmd_msg s1 ok).1.cmd_msg_queued = true ↔
      n + (if (applespi_send_cmd_msg s1 ok).2 && ok then 1 else 0) = 1) := by
  by_cases hq : s1.cmd_msg_queued = true
  · have ha : (applespi_send_cmd_msg s1 ok).2 = false := by
      cases h : (applespi_send_cmd_msg s1 ok).2
      · rfl
      · rw [send_cmd_msg_attempt s1 ok h] at hq; exact absurd hq (by simp)
    have hs : (applespi_send_cmd_msg s1 ok).1.cmd_msg_queued = true :=
      (send_cmd_msg_queued_iff s1 ok).mpr (Or.inl hq)
    have h1 : n = 1 := hiff.mp hq
    simp [ha, hs, h1]
  · have hne1 : n ≠ 1 := fun hn => hq (hiff.mpr hn)
    have hn0 : n = 0 := by omega
    subst hn0
    constructor
    · cases h : ((applespi_send_cmd_msg s1 ok).2 && ok) <;> simp [h]
    · rw [send_cmd_msg_queued_iff]
      simp [hq]

/-- The in-flight invariant holds at every reachable configuration. -/
theorem applespi_reach_invariant :
    ∀ (s : ApplespiState) (n : Nat), ApplespiReach s n →
      n ≤ 1 ∧ (s.cmd_msg_queued = true ↔ n = 1) := by
  intro s n h
  induction h with
  | init => simp [applespi_initial_state]
  | request s' n' e hr hnc ih =>
    cases e with
    | startInit ok => exact invariant_step_send _ ok n' ih.1 ih.2
    | setCapsLed b ok => exact invariant_step_send _ ok n' ih.1 ih.2
    | setBlLevel v ok => exact invariant_step_send _ ok n' ih.1 ih.2
    | writeComplete ok => simp [ApplespiEvent.isWriteComplete] at hnc
    | startDrain =>
      simp only [applespi_step]
      simpa using ih
  | complete s' n' ok hr hn ih =>
    have hn1 : n' = 1 := by omega
    subst hn1
    exact invariant_step_send { s' with cmd_msg_queued := false } ok 0 (by omega) (by simp)

/-- Claim C1: at most one command write is ever in flight. At every
reachable configuration of the command queue, under any interleaving of
init, caps-lock, backlight and completion events, the in-flight count is at
most 1 and equals 1 exactly when cmd_msg_queued is set; a transport send is
only attempted when the queued flag is clear; and a write completion
clears the flag and immediately re-evaluates what command is needed next by
re-running applespi_send_cmd_msg. -/
theorem applespi_single_write_in_flight :
    (∀ (s : ApplespiState) (n : Nat), ApplespiReach s n →
       n ≤ 1 ∧ (s.cmd_msg_queued = true ↔ n = 1)) ∧
    (∀ (s : ApplespiState) (ok : Bool),
       (applespi_send_cmd_msg s ok).2 = true → s.cmd_msg_queued = false) ∧
    (∀ (s : ApplespiState) (ok : Bool),
       applespi_step s (ApplespiEvent.writeComplete ok) =
         applespi_send_cmd_msg { s with cmd_msg_queued := false } ok) :=
  ⟨applespi_reach_invariant, send_cmd_msg_attempt, fun _ _ => rfl⟩

/-- Witness for applespi_single_write_in_flight, at the initial (probe-time)
configuration with zero commands in flight. -/
theorem applespi_single_write_in_flight_witness :
    0 ≤ 1 ∧ (applespi_initial_state.cmd_msg_queued = true ↔ 0 = 1) :=
  applespi_single_write_in_flight.1 applespi_initial_state 0 ApplespiReach.init

set_option maxRecDepth 8192

/-- Counterexample to claim C6: kb_bad_crc is a keyboard data frame whose
stored checksum does not match the CRC-16 of its payload span, yet
applespi_got_data routes it to the keyboard handler, which emits input
events: received frames are acted on without any checksum validation and a
corrupt data frame is not dropped. -/
theorem applespi_bad_crc_frame_accepted_cex :
    crc16 0 (keyboard_payload_span kb_bad_crc) ≠ kb_bad_crc.crc_16 ∧
    applespi_got_data_kind kb_bad_crc.packet_type kb_bad_crc.device =
      GotDataKind.keyboard ∧
    (applespi_got_data_events applespi_initial_state kb_bad_crc 1 0).2 ≠ [] := by
  refine ⟨by decide, by decide, by decide⟩

/-- Claim C6 as amended: applespi_got_data performs no checksum validation
at all on received frames; its routing and the events it emits are
independent of the frame's crc_16 field, so data frames are processed
identically whatever their stored checksum. -/
theorem applespi_read_crc_ignored_amended :
    ∀ (s : ApplespiState) (kp : keyboard_protocol) (fnmode iso_layout c : Nat),
      applespi_got_data_events s { kp with crc_16 := c } fnmode iso_layout =
        applespi_got_data_events s kp fnmode iso_layout := by
  intro s kp fnmode iso_layout c
  cases kp
  rfl

/-- Claim C7, evaluated at the failing input: in tp_frame_bug the only
active finger is record 1 (touch area 2, position x 5, raw y 7,
orientation 200), so the claim requires one contact whose position AND
axes/orientation all come from record 1 (touch_major 4, orientation
16384 - 200 = 16184). The code instead emits the contact with record 1's
position (5, -182 + 6089 - 7 = 5900) but record 0's axes and orientation
(touch_major 0, orientation 16384 - 0): the second reporting loop indexes
the finger array with the compacted position index instead of the raw
index of the active finger. -/
theorem applespi_tp_finger_record_mismatch :
    (report_tp_state (fun _ => 0) applespi_default_info tp_frame_bug).1 =
      [{ slot := 0, touch_major := 0, touch_minor := 0, width_major := 0,
         width_minor := 0, orientation := 16384, pos_x := 5, pos_y := 5900 }] ∧
    raw2int (tp_frame_bug.fingers.getD 1 tp_finger_zero).touch_major = 2 ∧
    MAX_FINGER_ORIENTATION -
      raw2int (tp_frame_bug.fingers.getD 1 tp_finger_zero).orientation = 16184 ∧
    (16384 : Int) ≠ 16184 := by
  refine ⟨by decide, by decide, by decide, by decide⟩

end applespi
